import Mathlib

/-!
Verification of the Hirify backend auth routes
(`app/routes/auth_routes.py`) against its specification.

The four Flask handlers (`signup`, `login`, `protected_test`, `profile`)
are shallowly embedded as pure Lean functions.  Every interaction with
the external Supabase platform (auth sign-up, password sign-in, token
verification, and `users`-table select/insert/update) is modelled by an
environment record supplying, per call site, either a returned value or
a raised exception carrying its Python `str(e)` message.  Request
payloads are records of `Option String` fields, mirroring `data.get(k)`
returning `None` for absent keys; Python truthiness of such a value is
`some s` with `s` nonempty.
-/

/-- JSON values, enough for the bodies the handlers build with `jsonify`. -/
inductive Json where
  | null : Json
  | str : String → Json
  | num : Int → Json
  | bool : Bool → Json
  | arr : List Json → Json
  | obj : List (String × Json) → Json

/-- The body `jsonify({"error": msg})` used by every failure branch. -/
def errJson (msg : String) : Json :=
  Json.obj [("error", Json.str msg)]

/-- Outcome of one call into the external platform client: either a
returned value or a raised exception with its `str(e)` message. -/
inductive CallResult (α : Type) where
  | ok : α → CallResult α
  | exn : String → CallResult α

/-- An HTTP response: the jsonified body and the status code. -/
structure Resp where
  body : Json
  status : Nat

/-- Python truthiness of a `data.get(key)` result: `None` and the empty
string are falsy, any nonempty string is truthy. -/
def pyTruthy (o : Option String) : Bool :=
  match o with
  | none => false
  | some s => !s.isEmpty

/-- Python `x or dflt` on a `data.get(key)` result. -/
def pyOr (o : Option String) (dflt : String) : String :=
  match o with
  | none => dflt
  | some s => if s.isEmpty then dflt else s

/-- Whether `pat` is a leading segment of `s`, over character lists. -/
def charsPrefixOf : List Char → List Char → Bool
  | [], _ => true
  | _ :: _, [] => false
  | a :: as, b :: bs => a == b && charsPrefixOf as bs

/-- Whether `pat` occurs contiguously inside `s`, over character lists. -/
def charsContain (s pat : List Char) : Bool :=
  match s with
  | [] => pat.isEmpty
  | _ :: t => charsPrefixOf pat s || charsContain t pat

/-- Python `pat in s` substring test. -/
def strContains (s pat : String) : Bool :=
  charsContain s.toList pat.toList

/-- Helper for `pySplit`: splits the remaining characters at `sep`,
`acc` is the current field, reversed. -/
def pySplitAux (sep : Char) : List Char → List Char → List String
  | [], acc => [String.mk acc.reverse]
  | c :: cs, acc =>
    if c == sep then
      String.mk acc.reverse :: pySplitAux sep cs []
    else
      pySplitAux sep cs (c :: acc)

/-- Python `s.split(sep)` with an explicit one-character separator:
splits at every occurrence, keeping empty fields, and yields `[""]` on
the empty string. -/
def pySplit (s : String) (sep : Char) : List String :=
  pySplitAux sep s.toList []

/-- Python `s.lower()`: character-wise ASCII lowering. -/
def pyLower (s : String) : String :=
  String.mk (s.data.map Char.toLower)

/-- A single-quote character, for building exception-message patterns. -/
def apos : String :=
  String.singleton (Char.ofNat 39)

/-- The pattern `has no attribute <apos>error<apos>` from the signup classifier. -/
def noAttrError : String :=
  "has no attribute " ++ apos ++ "error" ++ apos

/-- The pattern `has no attribute <apos>user<apos>` from the signup classifier. -/
def noAttrUser : String :=
  "has no attribute " ++ apos ++ "user" ++ apos

/-- The auth user carried by Supabase responses (`.user.id`, `.user.email`). -/
structure AuthUser where
  id : String
  email : String

/-- Result object of `supabase.auth.sign_up`: its `user` attribute may be
absent (`None`). -/
structure SignUpResponse where
  user : Option AuthUser

/-- Result object of a table insert/update `execute()`: the handler only
inspects a possible `error` attribute (`hasattr(response, ...) and
response.error`); `none` models the attribute absent or falsy. -/
structure DbResponse where
  error : Option String

/-- Truthiness check `hasattr(response, ...) and response.error`. -/
def dbErrTruthy (r : DbResponse) : Bool :=
  match r.error with
  | none => false
  | some m => !m.isEmpty

/-- The external-platform outcomes a single signup request can observe,
one per call site of the handler. -/
structure SignupEnv where
  signUpResult : CallResult SignUpResponse
  selectResult : CallResult (List String)
  insertResult : CallResult DbResponse
  updateResult : CallResult DbResponse

/-- The `profile_payload` dict built by signup: `auth_uid` is added only
on the insert path. -/
structure ProfilePayload where
  first_name : String
  last_name : String
  role : String
  auth_uid : Option String

/-- Trace of external-platform calls issued by a signup request. -/
inductive ExtCall where
  | authSignUp : String → String → ExtCall
  | selectByUid : String → ExtCall
  | insertRow : ProfilePayload → ExtCall
  | updateRow : String → ProfilePayload → ExtCall

/-- The signup request payload; `data.get(k)` of each field. -/
structure SignupRequest where
  email : Option String
  password : Option String
  first_name : Option String
  last_name : Option String
  role : Option String

/-- A signup response together with the trace of external calls made. -/
structure SignupResult where
  body : Json
  status : Nat
  calls : List ExtCall

/-- The `not all([email, password, first_name, role])` guard, negated. -/
def requiredPresent (d : SignupRequest) : Bool :=
  pyTruthy d.email && pyTruthy d.password && pyTruthy d.first_name && pyTruthy d.role

/-- Conflict patterns of the signup exception classifier, matched against
the lowercased message. -/
def signupConflictMatch (lowerMsg : String) : Bool :=
  strContains lowerMsg "user already exists" ||
  strContains lowerMsg "already registered" ||
  strContains lowerMsg "insert or update on table \"users\" violates foreign key constraint" ||
  strContains lowerMsg "key (auth_uid) is not present"

/-- Client-library attribute-error patterns of the signup classifier,
matched against the original-case message. -/
def signupAttrMatch (msg : String) : Bool :=
  strContains msg noAttrError || strContains msg noAttrUser

/-- The `except Exception` classifier of the signup route. -/
def classifySignupError (msg : String) : Json × Nat :=
  if signupConflictMatch (pyLower msg) then
    (errJson "This email is already registered. Please sign in.", 409)
  else if signupAttrMatch msg then
    (errJson "This email is already registered. Please sign in.", 409)
  else
    (errJson "An internal server error occurred during registration.", 500)

/-- Success body `{"message": ..., "auth_uid": uid}` of signup. -/
def signupSuccessBody (uid : String) : Json :=
  Json.obj [("message", Json.str "User registered successfully"), ("auth_uid", Json.str uid)]

/-- The `POST /signup` handler. -/
def signup (env : SignupEnv) (d : SignupRequest) : SignupResult :=
  let email := d.email.getD ""
  let password := d.password.getD ""
  let first_name := d.first_name.getD ""
  let last_name := pyOr d.last_name ""
  let role := d.role.getD ""
  if !requiredPresent d then
    ⟨errJson "All fields are required", 400, []⟩
  else
    let calls0 := [ExtCall.authSignUp email password]
    match env.signUpResult with
    | .exn m =>
        let r := classifySignupError m
        ⟨r.1, r.2, calls0⟩
    | .ok user_response =>
      match user_response.user with
      | none => ⟨errJson "Supabase signup failed to return user data.", 400, calls0⟩
      | some u =>
        let uid := u.id
        let calls1 := calls0 ++ [ExtCall.selectByUid uid]
        match env.selectResult with
        | .exn m =>
            let r := classifySignupError m
            ⟨r.1, r.2, calls1⟩
        | .ok rows =>
          let user_profile_exists := rows.length > 0
          let profile_payload : ProfilePayload := ⟨first_name, last_name, role, none⟩
          if user_profile_exists then
            let calls2 := calls1 ++ [ExtCall.updateRow uid profile_payload]
            match env.updateResult with
            | .exn m =>
                let r := classifySignupError m
                ⟨r.1, r.2, calls2⟩
            | .ok response =>
              if dbErrTruthy response then
                ⟨errJson "Profile creation/update failed. Please contact support.", 500, calls2⟩
              else
                ⟨signupSuccessBody uid, 201, calls2⟩
          else
            let insert_payload : ProfilePayload := { profile_payload with auth_uid := some uid }
            let calls2 := calls1 ++ [ExtCall.insertRow insert_payload]
            match env.insertResult with
            | .exn m =>
                let r := classifySignupError m
                ⟨r.1, r.2, calls2⟩
            | .ok response =>
              if dbErrTruthy response then
                ⟨errJson "Profile creation/update failed. Please contact support.", 500, calls2⟩
              else
                ⟨signupSuccessBody uid, 201, calls2⟩

/-- Session object of a successful password sign-in. -/
structure Session where
  access_token : String

/-- Result of `supabase.auth.sign_in_with_password` when it returns
normally: per the adapter contract a successful sign-in carries the
user and a session (failures raise and are handled in the except path). -/
structure SignInResponse where
  user : AuthUser
  session : Session

/-- A row of the `users` table as read by the login route. -/
structure ProfileRow where
  first_name : String
  last_name : String
  role : String

/-- The external-platform outcomes a single login request can observe. -/
structure LoginEnv where
  signInResult : CallResult SignInResponse
  selectResult : CallResult (List ProfileRow)

/-- The login request payload. -/
structure LoginRequest where
  email : Option String
  password : Option String

/-- Credential-failure patterns of the login exception classifier. -/
def loginCredMatch (lowerMsg : String) : Bool :=
  strContains lowerMsg "invalid login credentials" ||
  strContains lowerMsg "invalid email or password"

/-- User-not-found patterns of the login exception classifier. -/
def loginNotFoundMatch (lowerMsg : String) : Bool :=
  strContains lowerMsg "user not found" ||
  strContains lowerMsg "no user with that email"

/-- The `except Exception` classifier of the login route. -/
def classifyLoginError (e : String) : Resp :=
  let m := pyLower e
  if loginCredMatch m then
    ⟨errJson "Invalid email or password", 401⟩
  else if loginNotFoundMatch m then
    ⟨errJson "Invalid email or password", 401⟩
  else
    ⟨errJson "An internal server error occurred.", 500⟩

/-- The `POST /login` handler. -/
def login (env : LoginEnv) (d : LoginRequest) : Resp :=
  if !pyTruthy d.email || !pyTruthy d.password then
    ⟨errJson "Email and password required", 400⟩
  else
    match env.signInResult with
    | .exn e => classifyLoginError e
    | .ok user =>
      let uid := user.user.id
      match env.selectResult with
      | .exn e => classifyLoginError e
      | .ok rows =>
        match rows with
        | [] => ⟨errJson "User not found in public.users", 404⟩
        | profile_row :: _ =>
          ⟨Json.obj
            [("message", Json.str "Login successful"),
             ("access_token", Json.str user.session.access_token),
             ("user", Json.obj
               [("auth_uid", Json.str uid),
                ("first_name", Json.str profile_row.first_name),
                ("last_name", Json.str profile_row.last_name),
                ("role", Json.str profile_row.role),
                ("email", Json.str user.user.email)])], 200⟩

/-- Result of `supabase.auth.get_user` when it returns normally; the
handler tests `if not user` and then reads `user.user.id`/`.email`. -/
structure GetUserResponse where
  user : AuthUser

/-- The external-platform outcome a `/protected` request can observe. -/
structure ProtectedEnv where
  getUserResult : CallResult (Option GetUserResponse)

/-- The `GET /protected` handler.  `auth_header` is
`request.headers.get("Authorization")`.  `auth_header.split(" ")[1]` is
`(pySplit h space)[1]?`; when the index is absent Python raises
`IndexError` with message `list index out of range`, which the blanket
`except` converts to a 500 whose error string is that message. -/
def protected_test (env : ProtectedEnv) (auth_header : Option String) : Resp :=
  if !pyTruthy auth_header then
    ⟨errJson "Missing token", 401⟩
  else
    let h := auth_header.getD ""
    match (pySplit h (Char.ofNat 32))[1]? with
    | none => ⟨errJson "list index out of range", 500⟩
    | some _token =>
      match env.getUserResult with
      | .exn e => ⟨errJson e, 500⟩
      | .ok none => ⟨errJson "Invalid token", 403⟩
      | .ok (some user) =>
        ⟨Json.obj
          [("message", Json.str "Token is valid"),
           ("user_id", Json.str user.user.id),
           ("email", Json.str user.user.email)], 200⟩

/-- The external-platform outcome a `/profile/<auth_uid>` request can
observe: `select(*).eq(auth_uid, ...).single().execute()` yields a
response whose `.data` is the stored record or `None` when absent
(the adapter contract treats an absent row as a valid result, not an
error). -/
structure ProfileEnv where
  singleResult : CallResult (Option Json)

/-- The `GET /profile/<auth_uid>` handler. -/
def profile (env : ProfileEnv) (_auth_uid : String) : Resp :=
  match env.singleResult with
  | .exn e => ⟨errJson e, 500⟩
  | .ok none => ⟨errJson "User not found", 404⟩
  | .ok (some d) => ⟨d, 200⟩

/-! ## Claim theorems -/

/-- Stub environment for `/protected` requests that fail before the
token-verification call is reached. -/
def protEnvStub : ProtectedEnv :=
  ⟨CallResult.exn "unused"⟩

/-- A fully valid signup request payload. -/
def goodReq : SignupRequest :=
  ⟨some "a@x.com", some "p", some "A", none, some "candidate"⟩

/-- Claim C9: GET /profile/{auth_uid} returns 404 with a JSON error body
when no row with that auth_uid exists, and 200 with the full stored
profile record, fields exactly as written, when one exists. -/
theorem C9_profile_lookup (auth_uid : String) (rec : Json) :
    profile ⟨CallResult.ok (some rec)⟩ auth_uid = ⟨rec, 200⟩ ∧
    profile ⟨CallResult.ok none⟩ auth_uid = ⟨errJson "User not found", 404⟩ :=
  ⟨rfl, rfl⟩

/-- Claim C10: when the identity platform sign-up call returns normally
but carries no user object, signup responds 400 with the fixed error
body and performs no table operation (its call trace holds only the
auth sign-up call). -/
theorem C10_no_user_data (env : SignupEnv) (d : SignupRequest)
    (hreq : requiredPresent d = true)
    (hsu : env.signUpResult = CallResult.ok ⟨none⟩) :
    signup env d =
      ⟨errJson "Supabase signup failed to return user data.", 400,
        [ExtCall.authSignUp (d.email.getD "") (d.password.getD "")]⟩ := by
  simp only [signup, hreq, hsu, Bool.not_true, Bool.false_eq_true, if_false]

/-- Witness for C10 at a concrete environment and request. -/
theorem C10_no_user_data_witness :
    signup ⟨CallResult.ok ⟨none⟩, CallResult.ok [], CallResult.ok ⟨none⟩, CallResult.ok ⟨none⟩⟩ goodReq =
      ⟨errJson "Supabase signup failed to return user data.", 400,
        [ExtCall.authSignUp "a@x.com" "p"]⟩ :=
  C10_no_user_data
    ⟨CallResult.ok ⟨none⟩, CallResult.ok [], CallResult.ok ⟨none⟩, CallResult.ok ⟨none⟩⟩
    goodReq (by decide) rfl

/-- Claim C7: a login whose authentication succeeds but whose users-table
lookup returns no rows responds 404 with a JSON error body carrying no
access token and no user object. -/
theorem C7_login_profile_missing (env : LoginEnv) (d : LoginRequest) (u : SignInResponse)
    (he : pyTruthy d.email = true) (hp : pyTruthy d.password = true)
    (hsi : env.signInResult = CallResult.ok u)
    (hsel : env.selectResult = CallResult.ok []) :
    login env d = ⟨errJson "User not found in public.users", 404⟩ := by
  simp only [login, he, hp, hsi, hsel, Bool.not_true, Bool.false_or, Bool.false_eq_true,
    if_false]

/-- Witness for C7 at a concrete environment and request. -/
theorem C7_login_profile_missing_witness :
    login ⟨CallResult.ok ⟨⟨"uid-7", "c7@x.com"⟩, ⟨"tok7"⟩⟩, CallResult.ok []⟩
        ⟨some "c7@x.com", some "pw7"⟩ =
      ⟨errJson "User not found in public.users", 404⟩ :=
  C7_login_profile_missing
    ⟨CallResult.ok ⟨⟨"uid-7", "c7@x.com"⟩, ⟨"tok7"⟩⟩, CallResult.ok []⟩
    ⟨some "c7@x.com", some "pw7"⟩ ⟨⟨"uid-7", "c7@x.com"⟩, ⟨"tok7"⟩⟩
    (by decide) (by decide) rfl rfl

/-- Claim C5: a signup whose identity sign-up call raises with an
already-exists message is answered 409, never 500, with the fixed
conflict body. -/
theorem C5_signup_conflict (env : SignupEnv) (d : SignupRequest) (m : String)
    (hreq : requiredPresent d = true)
    (hsu : env.signUpResult = CallResult.exn m)
    (hm : (strContains (pyLower m) "user already exists" ||
           strContains (pyLower m) "already registered") = true) :
    (signup env d).status = 409 ∧
    (signup env d).body = errJson "This email is already registered. Please sign in." := by
  have hc : signupConflictMatch (pyLower m) = true := by
    unfold signupConflictMatch
    rcases Bool.or_eq_true_iff.mp hm with h | h <;> simp [h]
  simp [signup, hreq, hsu, classifySignupError, hc]

/-- Witness for C5: the actual Supabase message for a duplicate email. -/
theorem C5_signup_conflict_witness :
    (signup ⟨CallResult.exn "User already registered", CallResult.ok [], CallResult.ok ⟨none⟩,
        CallResult.ok ⟨none⟩⟩ goodReq).status = 409 ∧
    (signup ⟨CallResult.exn "User already registered", CallResult.ok [], CallResult.ok ⟨none⟩,
        CallResult.ok ⟨none⟩⟩ goodReq).body =
      errJson "This email is already registered. Please sign in." :=
  C5_signup_conflict
    ⟨CallResult.exn "User already registered", CallResult.ok [], CallResult.ok ⟨none⟩,
      CallResult.ok ⟨none⟩⟩
    goodReq "User already registered" (by decide) rfl (by decide)

/-- Claim C6: after a successful identity sign-up yielding `u.id`, an
empty profile-existence lookup takes the insert path with `auth_uid` in
the payload, a nonempty one takes the update path keyed by `auth_uid`
with a payload lacking it; either write completing without a surfaced
error responds 201 with the success body. -/
theorem C6_upsert_paths (env : SignupEnv) (d : SignupRequest) (u : AuthUser)
    (rows : List String) (resp : DbResponse)
    (hreq : requiredPresent d = true)
    (hsu : env.signUpResult = CallResult.ok ⟨some u⟩)
    (hsel : env.selectResult = CallResult.ok rows)
    (hok : dbErrTruthy resp = false) :
    (rows = [] → env.insertResult = CallResult.ok resp →
      signup env d =
        ⟨signupSuccessBody u.id, 201,
          [ExtCall.authSignUp (d.email.getD "") (d.password.getD ""),
           ExtCall.selectByUid u.id,
           ExtCall.insertRow ⟨d.first_name.getD "", pyOr d.last_name "", d.role.getD "", some u.id⟩]⟩) ∧
    (rows ≠ [] → env.updateResult = CallResult.ok resp →
      signup env d =
        ⟨signupSuccessBody u.id, 201,
          [ExtCall.authSignUp (d.email.getD "") (d.password.getD ""),
           ExtCall.selectByUid u.id,
           ExtCall.updateRow u.id ⟨d.first_name.getD "", pyOr d.last_name "", d.role.getD "", none⟩]⟩) := by
  constructor
  · intro hrows hins
    subst hrows
    simp [signup, hreq, hsu, hsel, hins, hok]
  · intro hrows hupd
    rcases rows with _ | ⟨r, rs⟩
    · exact absurd rfl hrows
    · simp [signup, hreq, hsu, hsel, hupd, hok]

/-- Witness for C6 at a concrete environment taking the insert path. -/
theorem C6_upsert_paths_witness :
    signup ⟨CallResult.ok ⟨some ⟨"uid-6", "a@x.com"⟩⟩, CallResult.ok [], CallResult.ok ⟨none⟩,
        CallResult.ok ⟨none⟩⟩ goodReq =
      ⟨signupSuccessBody "uid-6", 201,
        [ExtCall.authSignUp "a@x.com" "p", ExtCall.selectByUid "uid-6",
         ExtCall.insertRow ⟨"A", "", "candidate", some "uid-6"⟩]⟩ :=
  (C6_upsert_paths
    ⟨CallResult.ok ⟨some ⟨"uid-6", "a@x.com"⟩⟩, CallResult.ok [], CallResult.ok ⟨none⟩,
      CallResult.ok ⟨none⟩⟩
    goodReq ⟨"uid-6", "a@x.com"⟩ [] ⟨none⟩ (by decide) rfl rfl (by decide)).1 rfl rfl

/-- For C8: both recognised authentication-failure shapes map to the
same generic 401 response. -/
theorem classifyLoginError_authFail (m : String)
    (hm : (loginCredMatch (pyLower m) || loginNotFoundMatch (pyLower m)) = true) :
    classifyLoginError m = ⟨errJson "Invalid email or password", 401⟩ := by
  unfold classifyLoginError
  by_cases hc : loginCredMatch (pyLower m) = true
  · simp [hc]
  · have hn : loginNotFoundMatch (pyLower m) = true := by
      rcases Bool.or_eq_true_iff.mp hm with h | h
      · exact absurd h hc
      · exact h
    simp [hc, hn]

/-- Claim C8: whether authentication fails because the password is wrong
for an existing email or because the email does not exist, the two
responses are identical: 401 with the generic invalid-credentials body,
revealing nothing about whether the email is registered. -/
theorem C8_login_indistinguishable (envW envN : LoginEnv) (dW dN : LoginRequest)
    (mW mN : String)
    (heW : pyTruthy dW.email = true) (hpW : pyTruthy dW.password = true)
    (heN : pyTruthy dN.email = true) (hpN : pyTruthy dN.password = true)
    (hW : envW.signInResult = CallResult.exn mW)
    (hN : envN.signInResult = CallResult.exn mN)
    (hmW : (loginCredMatch (pyLower mW) || loginNotFoundMatch (pyLower mW)) = true)
    (hmN : (loginCredMatch (pyLower mN) || loginNotFoundMatch (pyLower mN)) = true) :
    login envW dW = login envN dN ∧
    login envW dW = ⟨errJson "Invalid email or password", 401⟩ := by
  have hw : login envW dW = ⟨errJson "Invalid email or password", 401⟩ := by
    simp [login, heW, hpW, hW, classifyLoginError_authFail mW hmW]
  have hn : login envN dN = ⟨errJson "Invalid email or password", 401⟩ := by
    simp [login, heN, hpN, hN, classifyLoginError_authFail mN hmN]
  exact ⟨hw.trans hn.symm, hw⟩

/-- Witness for C8: a wrong-password failure and a no-such-user failure
at concrete inputs yield the same 401 response. -/
theorem C8_login_indistinguishable_witness :
    login ⟨CallResult.exn "Invalid login credentials", CallResult.ok []⟩
        ⟨some "w@x.com", some "wrongpw"⟩ =
      login ⟨CallResult.exn "User not found", CallResult.ok []⟩
        ⟨some "ghost@x.com", some "whatever"⟩ ∧
    login ⟨CallResult.exn "Invalid login credentials", CallResult.ok []⟩
        ⟨some "w@x.com", some "wrongpw"⟩ =
      ⟨errJson "Invalid email or password", 401⟩ :=
  C8_login_indistinguishable
    ⟨CallResult.exn "Invalid login credentials", CallResult.ok []⟩
    ⟨CallResult.exn "User not found", CallResult.ok []⟩
    ⟨some "w@x.com", some "wrongpw"⟩ ⟨some "ghost@x.com", some "whatever"⟩
    "Invalid login credentials" "User not found"
    (by decide) (by decide) (by decide) (by decide) rfl rfl (by decide) (by decide)

/-- Environment for the C4 witness: every external call succeeds. -/
def c4Env : SignupEnv :=
  ⟨CallResult.ok ⟨some ⟨"uid-4", "a@x.com"⟩⟩, CallResult.ok [], CallResult.ok ⟨none⟩,
    CallResult.ok ⟨none⟩⟩

/-- Claim C4: a signup payload missing (or with a falsy) email, password,
first_name or role is answered 400 with an error body and no external
call at all; a missing last_name is not rejected (the auth call is
issued) and behaves exactly as an explicit empty string. -/
theorem C4_validation (env : SignupEnv) (d : SignupRequest) :
    (requiredPresent d = false →
      signup env d = ⟨errJson "All fields are required", 400, []⟩) ∧
    (requiredPresent d = true → d.last_name = none →
      (signup env d).calls ≠ [] ∧
      signup env d = signup env { d with last_name := some "" }) := by
  constructor
  · intro hmiss
    simp [signup, hmiss]
  · intro hreq hln
    constructor
    · obtain ⟨su, se, ie, ue⟩ := env
      rcases su with ⟨ou⟩ | m
      · rcases ou with _ | u
        · simp [signup, hreq]
        · rcases se with rows | m2
          · rcases rows with _ | ⟨r, rs⟩
            · rcases ie with resp | m3
              · by_cases hdb : dbErrTruthy resp = true <;> simp [signup, hreq, hdb]
              · simp [signup, hreq]
            · rcases ue with resp | m3
              · by_cases hdb : dbErrTruthy resp = true <;> simp [signup, hreq, hdb]
              · simp [signup, hreq]
          · simp [signup, hreq]
      · simp [signup, hreq]
    · obtain ⟨e, p, f, l, r⟩ := d
      simp only at hln
      subst hln
      rfl

/-- Witness for C4: a payload missing its email is rejected with no
external call; one missing only last_name reaches the platform. -/
theorem C4_validation_witness :
    signup c4Env ⟨none, some "p", some "A", none, some "candidate"⟩ =
      ⟨errJson "All fields are required", 400, []⟩ ∧
    (signup c4Env goodReq).calls ≠ [] := by
  constructor
  · exact (C4_validation c4Env ⟨none, some "p", some "A", none, some "candidate"⟩).1 (by decide)
  · exact ((C4_validation c4Env goodReq).2 (by decide) rfl).1

/-- Claim C1 counterexample: a present but malformed Authorization header
(no space, so no token segment) is answered 500, not the claimed 401 —
the IndexError from `split(" ")[1]` reaches the blanket handler. -/
theorem C1_counterexample :
    (protected_test protEnvStub (some "BearerNoSpace")).status = 500 ∧
    (protected_test protEnvStub (some "BearerNoSpace")).status ≠ 401 := by
  decide

/-- Claim C1 as amended: a missing Authorization header yields 401 with a
JSON error body; a present, nonempty header with no space-delimited
second segment does not crash but yields 500 (not 401) with a JSON
error body carrying the IndexError message. -/
theorem C1_amended (env : ProtectedEnv) (s : String)
    (hnonempty : s.isEmpty = false)
    (hmalformed : (pySplit s (Char.ofNat 32))[1]? = none) :
    protected_test env none = ⟨errJson "Missing token", 401⟩ ∧
    protected_test env (some s) = ⟨errJson "list index out of range", 500⟩ := by
  constructor
  · rfl
  · simp [protected_test, pyTruthy, hnonempty, hmalformed]

/-- Witness for the amended C1 at a concrete malformed header. -/
theorem C1_amended_witness :
    protected_test protEnvStub none = ⟨errJson "Missing token", 401⟩ ∧
    protected_test protEnvStub (some "token-without-scheme") =
      ⟨errJson "list index out of range", 500⟩ :=
  C1_amended protEnvStub "token-without-scheme" (by decide) (by decide)

/-- The raw upstream message used in the C2 counterexample; it matches no
classification pattern of either route. -/
def rawMsgC2 : String := "upstream db exploded p0901"

/-- Claim C2 counterexample: at /profile an unclassified upstream
exception is answered with the raw exception message itself as the
error string (status 500), so the caller does receive a raw upstream
message; the message matches no classification pattern. -/
theorem C2_counterexample :
    profile ⟨CallResult.exn rawMsgC2⟩ "uid-2" = ⟨errJson rawMsgC2, 500⟩ ∧
    signupConflictMatch (pyLower rawMsgC2) = false ∧
    signupAttrMatch rawMsgC2 = false ∧
    loginCredMatch (pyLower rawMsgC2) = false ∧
    loginNotFoundMatch (pyLower rawMsgC2) = false := by
  refine ⟨rfl, by decide, by decide, by decide, by decide⟩

/-- Claim C2 as amended: for an upstream exception matching no
classification pattern, signup and login answer with their fixed
generic messages (the raw message is only logged), but protected and
profile answer 500 with the raw exception message verbatim as the
error string. -/
theorem C2_amended (msg : String) (senv : SignupEnv) (lenv : LoginEnv)
    (penv : ProtectedEnv) (prenv : ProfileEnv)
    (d : SignupRequest) (dl : LoginRequest) (uid : String)
    (hreq : requiredPresent d = true)
    (hle : pyTruthy dl.email = true) (hlp : pyTruthy dl.password = true)
    (hs : senv.signUpResult = CallResult.exn msg)
    (hl : lenv.signInResult = CallResult.exn msg)
    (hp : penv.getUserResult = CallResult.exn msg)
    (hpr : prenv.singleResult = CallResult.exn msg)
    (hu1 : signupConflictMatch (pyLower msg) = false)
    (hu2 : signupAttrMatch msg = false)
    (hu3 : loginCredMatch (pyLower msg) = false)
    (hu4 : loginNotFoundMatch (pyLower msg) = false) :
    (signup senv d).body = errJson "An internal server error occurred during registration." ∧
    (signup senv d).status = 500 ∧
    login lenv dl = ⟨errJson "An internal server error occurred.", 500⟩ ∧
    protected_test penv (some "Bearer tok123") = ⟨errJson msg, 500⟩ ∧
    profile prenv uid = ⟨errJson msg, 500⟩ := by
  have ht : pyTruthy (some ("Bearer tok123" : String)) = true := by decide
  have hsplit : (pySplit "Bearer tok123" (Char.ofNat 32))[1]? = some "tok123" := by decide
  refine ⟨?_, ?_, ?_, ?_, ?_⟩
  · simp [signup, hreq, hs, classifySignupError, hu1, hu2]
  · simp [signup, hreq, hs, classifySignupError, hu1, hu2]
  · simp [login, hle, hlp, hl, classifyLoginError, hu3, hu4]
  · simp [protected_test, ht, hsplit, hp]
  · simp [profile, hpr]

/-- Witness for the amended C2 at a concrete unclassified message. -/
theorem C2_amended_witness :
    (signup ⟨CallResult.exn "upstream failure xyz", CallResult.ok [], CallResult.ok ⟨none⟩,
        CallResult.ok ⟨none⟩⟩ goodReq).body =
      errJson "An internal server error occurred during registration." ∧
    (signup ⟨CallResult.exn "upstream failure xyz", CallResult.ok [], CallResult.ok ⟨none⟩,
        CallResult.ok ⟨none⟩⟩ goodReq).status = 500 ∧
    login ⟨CallResult.exn "upstream failure xyz", CallResult.ok []⟩ ⟨some "l@x.com", some "pw"⟩ =
      ⟨errJson "An internal server error occurred.", 500⟩ ∧
    protected_test ⟨CallResult.exn "upstream failure xyz"⟩ (some "Bearer tok123") =
      ⟨errJson "upstream failure xyz", 500⟩ ∧
    profile ⟨CallResult.exn "upstream failure xyz"⟩ "uid-2b" =
      ⟨errJson "upstream failure xyz", 500⟩ :=
  C2_amended "upstream failure xyz"
    ⟨CallResult.exn "upstream failure xyz", CallResult.ok [], CallResult.ok ⟨none⟩,
      CallResult.ok ⟨none⟩⟩
    ⟨CallResult.exn "upstream failure xyz", CallResult.ok []⟩
    ⟨CallResult.exn "upstream failure xyz"⟩
    ⟨CallResult.exn "upstream failure xyz"⟩
    goodReq ⟨some "l@x.com", some "pw"⟩ "uid-2b"
    (by decide) (by decide) (by decide) rfl rfl rfl rfl
    (by decide) (by decide) (by decide) (by decide)

/-- The standard duplicate-key message a lost check-then-insert race
produces on the profile insert. -/
def dupKeyMsg : String :=
  "duplicate key value violates unique constraint \"users_auth_uid_key\""

/-- Environment for the C3 counterexample: the identity sign-up and the
existence lookup succeed (no rows), then the insert raises the
duplicate-key error of the lost race. -/
def c3Env : SignupEnv :=
  ⟨CallResult.ok ⟨some ⟨"uid-3", "c3@x.com"⟩⟩, CallResult.ok [], CallResult.exn dupKeyMsg,
    CallResult.ok ⟨none⟩⟩

/-- Signup request for the C3 counterexample. -/
def c3Req : SignupRequest :=
  ⟨some "c3@x.com", some "pw3", some "C", none, some "candidate"⟩

/-- Claim C3 counterexample: the lost half of the check-then-insert race
(insert failing with the standard duplicate-key/unique-constraint
message) is answered 500, not the claimed 409 — the message matches
none of the classifier's conflict substrings. -/
theorem C3_counterexample :
    (signup c3Env c3Req).status = 500 ∧ (signup c3Env c3Req).status ≠ 409 := by
  decide

/-- Environment for the C3 amended witness. -/
def c3bEnv : SignupEnv :=
  ⟨CallResult.ok ⟨some ⟨"uid-3b", "c3b@x.com"⟩⟩, CallResult.ok [], CallResult.exn dupKeyMsg,
    CallResult.ok ⟨none⟩⟩

/-- Signup request for the C3 amended witness. -/
def c3bReq : SignupRequest :=
  ⟨some "c3b@x.com", some "pw3b", some "C", none, some "recruiter"⟩

/-- Claim C3 as amended: an insert-step failure is classified Conflict
(409) exactly when its message contains one of the classifier's
conflict substrings; the standard duplicate-key/unique-constraint
message contains none of them, so that failure is classified
InternalError (500). -/
theorem C3_amended (env : SignupEnv) (d : SignupRequest) (u : AuthUser) (m : String)
    (hreq : requiredPresent d = true)
    (hsu : env.signUpResult = CallResult.ok ⟨some u⟩)
    (hsel : env.selectResult = CallResult.ok [])
    (hins : env.insertResult = CallResult.exn m) :
    (signupConflictMatch (pyLower m) = true → (signup env d).status = 409) ∧
    (signupConflictMatch (pyLower m) = false → signupAttrMatch m = false →
      (signup env d).status = 500 ∧
      (signup env d).body = errJson "An internal server error occurred during registration.") ∧
    signupConflictMatch (pyLower dupKeyMsg) = false ∧
    signupAttrMatch dupKeyMsg = false := by
  refine ⟨?_, ?_, by decide, by decide⟩
  · intro hc
    simp [signup, hreq, hsu, hsel, hins, classifySignupError, hc]
  · intro hc ha
    constructor
    · simp [signup, hreq, hsu, hsel, hins, classifySignupError, hc, ha]
    · simp [signup, hreq, hsu, hsel, hins, classifySignupError, hc, ha]

/-- Witness for the amended C3: the duplicate-key insert failure at a
concrete environment is answered 500 with the generic internal-error
body. -/
theorem C3_amended_witness :
    (signup c3bEnv c3bReq).status = 500 ∧
    (signup c3bEnv c3bReq).body =
      errJson "An internal server error occurred during registration." :=
  (C3_amended c3bEnv c3bReq ⟨"uid-3b", "c3b@x.com"⟩ dupKeyMsg
    (by decide) rfl rfl rfl).2.1 (by decide) (by decide)
